import Mathlib

/-!
Verification of the `CHTTPClient` class (HTTP/HTTPClient.cpp, HTTP/HTTPClient.h)
from the httpclient-cpp repository, via a shallow embedding.

Modelling conventions:
- `ClientState` mirrors the mutable member fields of `CHTTPClient` that the
  verified operations touch.  The opaque curl session pointer is modelled by
  the boolean `pCurlSession` (non-null / null); the curl header list
  `m_pHeaderlist` is modelled as `Option (List String)` (null / list of the
  appended header strings).
- Calls into libcurl (`curl_easy_init`, `curl_easy_perform`,
  `curl_easy_getinfo`, file opening) are external effects; their outcomes are
  passed in as explicit parameters (`allocOk`, `engineCode`, `respCode`,
  `fileOpens`).
- `curl_easy_setopt` calls are recorded, in program order, as a list of
  (option id, value) pairs; the engine's resulting option state is the last
  write per option id (`lastOpt`).  Option ids carry their numeric values
  from curl/curl.h because the source uses the constant
  `CURLOPT_SSL_VERIFYHOST` (= 81) as a bitmask over the settings flags.
- C strings are modelled as Lean `String`s with ASCII semantics for
  `::toupper` and `isspace`.
-/

namespace HttpClientCpp

/-- ASCII semantics of C `::toupper`, as applied by `std::transform` in
`CHTTPClient::SetProxy` and `CHTTPClient::CheckURL`. -/
def cToUpper (c : Char) : Char :=
  if 97 ≤ c.toNat ∧ c.toNat ≤ 122 then Char.ofNat (c.toNat - 32) else c

/-- Uppercases a whole string, modelling
`std::transform(s.begin(), s.end(), s.begin(), ::toupper)`. -/
def strToUpper (s : String) : String :=
  String.mk (s.data.map cToUpper)

/-- ASCII semantics of C `isspace`, used by `CHTTPClient::TrimSpaces`. -/
def cIsSpace (c : Char) : Bool :=
  c == ' ' || c == '\t' || c == '\n' || c == '\x0b' || c == '\x0c' || c == '\r'

/-- Model of `CHTTPClient::TrimSpaces`: erase leading whitespace, then
trailing whitespace. -/
def TrimSpaces (s : String) : String :=
  String.mk (((s.data.dropWhile cIsSpace).reverse.dropWhile cIsSpace).reverse)

/-- Truthiness of `flags & bit` in C: the bitwise AND is non-zero. -/
def flagSet (flags bit : Nat) : Bool :=
  flags.land bit != 0

-- Values of the `CHTTPClient::SettingsFlag` enum (HTTPClient.h).
def NO_FLAGS : Nat := 0x00
def ENABLE_LOG : Nat := 0x01
def VERIFY_PEER : Nat := 0x02
def VERIFY_HOST : Nat := 0x04
def ALL_FLAGS : Nat := 0xFF

-- CURLcode values used by the source (curl/curl.h).
def CURLE_OK : Nat := 0
def CURLE_FAILED_INIT : Nat := 2

-- Numeric values of the CURLoption ids used by `CHTTPClient::Perform`,
-- from curl/curl.h (CURLOPTTYPE_LONG = 0, CURLOPTTYPE_OBJECTPOINT = 10000,
-- CURLOPTTYPE_FUNCTIONPOINT = 20000).  The value of CURLOPT_SSL_VERIFYHOST
-- matters: the source uses the constant itself as a bitmask.
def CURLOPT_URL : Nat := 10002
def CURLOPT_HTTPHEADER : Nat := 10023
def CURLOPT_USERAGENT : Nat := 10018
def CURLOPT_AUTOREFERER : Nat := 58
def CURLOPT_FOLLOWLOCATION : Nat := 52
def CURLOPT_TIMEOUT : Nat := 13
def CURLOPT_NOSIGNAL : Nat := 99
def CURLOPT_PROXY : Nat := 10004
def CURLOPT_HTTPPROXYTUNNEL : Nat := 61
def CURLOPT_PROGRESSFUNCTION : Nat := 20056
def CURLOPT_PROGRESSDATA : Nat := 10057
def CURLOPT_NOPROGRESS : Nat := 43
def CURLOPT_USE_SSL : Nat := 119
def CURLOPT_SSL_VERIFYPEER : Nat := 64
def CURLOPT_SSL_VERIFYHOST : Nat := 81
def CURLOPT_CAINFO : Nat := 10065
def CURLOPT_SSLCERT : Nat := 10025
def CURLOPT_SSLKEY : Nat := 10087
def CURLOPT_KEYPASSWD : Nat := 10026
def CURLOPT_HTTPGET : Nat := 80
def CURLOPT_WRITEFUNCTION : Nat := 20011
def CURLOPT_WRITEDATA : Nat := 10001
def CURLOPT_HEADERFUNCTION : Nat := 20079
def CURLOPT_HEADERDATA : Nat := 10029
def CURLOPT_CUSTOMREQUEST : Nat := 10036
def CURLOPT_NOBODY : Nat := 44
def CURLOPT_POST : Nat := 47
def CURLOPT_POSTFIELDS : Nat := 10015
def CURLOPT_POSTFIELDSIZE : Nat := 60
def CURLOPT_PUT : Nat := 54
def CURLOPT_UPLOAD : Nat := 46
def CURLOPT_READFUNCTION : Nat := 20012
def CURLOPT_READDATA : Nat := 10009
def CURLOPT_INFILESIZE : Nat := 14

/-- Value of `CURLUSESSL_ALL` in the `curl_usessl` enum. -/
def CURLUSESSL_ALL : Nat := 3

/-- Value passed to a `curl_easy_setopt` call. -/
inductive OptVal where
  | num (n : Int)
  | str (s : String)
  | headers (hs : List String)
  | fnPtr
deriving DecidableEq, Repr

/-- Engine option state after a sequence of `curl_easy_setopt` calls:
the last write for the given option id, if any. -/
def lastOpt (opts : List (Nat × OptVal)) (o : Nat) : Option OptVal :=
  (opts.reverse.find? (fun p => p.1 == o)).map (fun p => p.2)

/-- Mutable member state of a `CHTTPClient` object (HTTPClient.h). -/
structure ClientState where
  strURL : String
  strProxy : String
  bNoSignal : Bool
  bHTTPS : Bool
  eSettingsFlags : Nat
  pHeaderlist : Option (List String)
  strSSLCertFile : String
  strSSLKeyFile : String
  strSSLKeyPwd : String
  pCurlSession : Bool
  iCurlTimeout : Int
  bProgressCallbackSet : Bool
deriving DecidableEq, Repr

/-- State established by the `CHTTPClient` constructor. -/
def initialState : ClientState :=
  { strURL := ""
    strProxy := ""
    bNoSignal := false
    bHTTPS := false
    eSettingsFlags := ALL_FLAGS
    pHeaderlist := none
    strSSLCertFile := ""
    strSSLKeyFile := ""
    strSSLKeyPwd := ""
    pCurlSession := false
    iCurlTimeout := 0
    bProgressCallbackSet := false }

/-- Model of `CHTTPClient::InitSession(bHTTPS, eSettingsFlags)`.
`allocOk` is the outcome of the external `curl_easy_init()` call.
Returns the C++ return value paired with the updated state. -/
def InitSession (st : ClientState) (bHTTPS : Bool) (eSettingsFlags : Nat)
    (allocOk : Bool) : Bool × ClientState :=
  if st.pCurlSession then
    (false, st)
  else
    (allocOk,
      { st with pCurlSession := allocOk, bHTTPS := bHTTPS,
                eSettingsFlags := eSettingsFlags })

/-- Model of `CHTTPClient::CleanupSession()`. -/
def CleanupSession (st : ClientState) : Bool × ClientState :=
  if !st.pCurlSession then
    (false, st)
  else
    (true, { st with pCurlSession := false, pHeaderlist := none })

/-- Model of `CHTTPClient::AddHeader(strHeader)`:
`curl_slist_append` on a null list allocates a fresh one. -/
def AddHeader (st : ClientState) (strHeader : String) : ClientState :=
  { st with pHeaderlist := some ((st.pHeaderlist.getD []) ++ [strHeader]) }

/-- Model of `CHTTPClient::SetProxy(strProxy)`. -/
def SetProxy (st : ClientState) (strProxy : String) : ClientState :=
  if strProxy = "" then st
  else
    let strUri := strToUpper strProxy
    if ¬ (strUri.data.take 4 = "HTTP".data) then
      { st with strProxy := "http://" ++ strProxy }
    else
      { st with strProxy := strProxy }

/-- Model of `CHTTPClient::CheckURL(strURL)`. -/
def CheckURL (st : ClientState) (strURL : String) : ClientState :=
  let strTmp := strToUpper strURL
  if strTmp.data.take 7 = "HTTP://".data then
    { st with bHTTPS := false, strURL := strURL }
  else if strTmp.data.take 8 = "HTTPS://".data then
    { st with bHTTPS := true, strURL := strURL }
  else
    { st with strURL := (if st.bHTTPS then "https://" else "http://") ++ strURL }

/-- Spec-side notion used by the claims: `s` case-insensitively starts
with `pre`. -/
def ciStartsWith (s pre : String) : Bool :=
  decide ((strToUpper s).data.take pre.length = (strToUpper pre).data)

/-- User agent string `CLIENT_USERAGENT` (HTTPClient.h). -/
def CLIENT_USERAGENT : String := "httpclientcpp-agent/1.0"

/-- The sequence of `curl_easy_setopt` calls issued by `CHTTPClient::Perform`
(after the session check and before `curl_easy_perform`), in program order.
`caFile` is the static member `s_strCertificationAuthorityFile`.
Note the source, at lines 249-250, sets `CURLOPT_SSL_VERIFYPEER` twice:
the second call again names option `CURLOPT_SSL_VERIFYPEER` and masks the
settings flags with the constant `CURLOPT_SSL_VERIFYHOST` (= 81). -/
def performSetopts (st : ClientState) (caFile : String) : List (Nat × OptVal) :=
  [(CURLOPT_URL, OptVal.str st.strURL)]
  ++ (match st.pHeaderlist with
      | some hs => [(CURLOPT_HTTPHEADER, OptVal.headers hs)]
      | none => [])
  ++ [(CURLOPT_USERAGENT, OptVal.str CLIENT_USERAGENT),
      (CURLOPT_AUTOREFERER, OptVal.num 1),
      (CURLOPT_FOLLOWLOCATION, OptVal.num 1)]
  ++ (if 0 < st.iCurlTimeout then
        [(CURLOPT_TIMEOUT, OptVal.num st.iCurlTimeout),
         (CURLOPT_NOSIGNAL, OptVal.num 1)]
      else [])
  ++ (if st.strProxy ≠ "" then
        [(CURLOPT_PROXY, OptVal.str st.strProxy),
         (CURLOPT_HTTPPROXYTUNNEL, OptVal.num 1)]
      else [])
  ++ (if st.bNoSignal then [(CURLOPT_NOSIGNAL, OptVal.num 1)] else [])
  ++ (if st.bProgressCallbackSet then
        [(CURLOPT_PROGRESSFUNCTION, OptVal.fnPtr),
         (CURLOPT_PROGRESSDATA, OptVal.fnPtr),
         (CURLOPT_NOPROGRESS, OptVal.num 0)]
      else [])
  ++ (if st.bHTTPS then
        [(CURLOPT_USE_SSL, OptVal.num CURLUSESSL_ALL),
         (CURLOPT_SSL_VERIFYPEER,
            OptVal.num (if flagSet st.eSettingsFlags VERIFY_PEER then 1 else 0)),
         (CURLOPT_SSL_VERIFYPEER,
            OptVal.num (if flagSet st.eSettingsFlags CURLOPT_SSL_VERIFYHOST then 2 else 0))]
      else [])
  ++ (if st.bHTTPS ∧ caFile ≠ "" then [(CURLOPT_CAINFO, OptVal.str caFile)] else [])
  ++ (if st.bHTTPS ∧ st.strSSLCertFile ≠ "" then
        [(CURLOPT_SSLCERT, OptVal.str st.strSSLCertFile)] else [])
  ++ (if st.bHTTPS ∧ st.strSSLKeyFile ≠ "" then
        [(CURLOPT_SSLKEY, OptVal.str st.strSSLKeyFile)] else [])
  ++ (if st.bHTTPS ∧ st.strSSLKeyPwd ≠ "" then
        [(CURLOPT_KEYPASSWD, OptVal.str st.strSSLKeyPwd)] else [])

/-- Outcome of a call to `CHTTPClient::Perform`. -/
structure PerformOut where
  ret : Nat
  st : ClientState
  opts : List (Nat × OptVal)
deriving DecidableEq, Repr

/-- Model of `CHTTPClient::Perform()`.  `engineCode` is the CURLcode returned
by the external `curl_easy_perform` call.  On an uninitialized session the
function returns `CURLE_FAILED_INIT` at once, setting no option and leaving
the header list alone; otherwise it applies `performSetopts`, performs the
transfer, and unconditionally frees and nulls the header list. -/
def Perform (st : ClientState) (caFile : String) (engineCode : Nat) : PerformOut :=
  if !st.pCurlSession then
    ⟨CURLE_FAILED_INIT, st, []⟩
  else
    ⟨engineCode, { st with pHeaderlist := none }, performSetopts st caFile⟩

/-- Outcome of a call to `CHTTPClient::DownloadFile`. -/
structure DownloadOut where
  ret : Bool
  transferPerformed : Bool
  st : ClientState
deriving DecidableEq, Repr

/-- Model of `CHTTPClient::DownloadFile(strLocalFile, strURL, lHTTPStatusCode)`.
`fileOpens` is the outcome of opening the local output stream, and
`engineCode` the CURLcode of the transfer (only relevant when it runs).
The source falls through to `return true` when the file fails to open and
`ENABLE_LOG` is not set, because its `return false` is nested inside
`else if (m_eSettingsFlags & ENABLE_LOG)`. -/
def DownloadFile (st : ClientState) (strLocalFile strURL : String)
    (fileOpens : Bool) (engineCode : Nat) (caFile : String) : DownloadOut :=
  if strURL = "" ∨ strLocalFile = "" then
    ⟨false, false, st⟩
  else if !st.pCurlSession then
    ⟨false, false, st⟩
  else
    let st1 := CheckURL st strURL
    if fileOpens then
      let p := Perform st1 caFile engineCode
      if p.ret ≠ CURLE_OK then
        ⟨false, true, p.st⟩
      else
        ⟨true, true, p.st⟩
    else if flagSet st1.eSettingsFlags ENABLE_LOG then
      ⟨false, false, st1⟩
    else
      ⟨true, false, st1⟩

/-- Model of the `CHTTPClient::HttpResponse` record. -/
structure HttpResponse where
  iCode : Int
  mapHeaders : List (String × String)
  strBody : String
deriving DecidableEq, Repr

/-- Last-write-wins insertion, modelling `std::unordered_map::operator[]`
assignment on the headers map. -/
def mapInsert (m : List (String × String)) (k v : String) :
    List (String × String) :=
  if m.any (fun p => p.1 == k) then
    m.map (fun p => if p.1 == k then (k, v) else p)
  else
    m ++ [(k, v)]

/-- Lookup in the headers map. -/
def mapFind? (m : List (String × String)) (k : String) : Option String :=
  (m.find? (fun p => p.1 == k)).map (fun p => p.2)

/-- Model of `CHTTPClient::RestWriteCallback`: append the delivered bytes to
the response body, return the delivered byte count. -/
def RestWriteCallback (delivered : String) (resp : HttpResponse) :
    Nat × HttpResponse :=
  (delivered.length, { resp with strBody := resp.strBody ++ delivered })

/-- Model of `CHTTPClient::RestHeaderCallback`: one delivered header line is
split at the first colon; without a colon a trimmed non-blank line is
recorded as a presence marker.  The return value is always the delivered
byte count. -/
def RestHeaderCallback (strHeader : String) (resp : HttpResponse) :
    Nat × HttpResponse :=
  match strHeader.data.findIdx? (fun c => c == ':') with
  | none =>
    let t := TrimSpaces strHeader
    if t.length = 0 then
      (strHeader.length, resp)
    else
      (strHeader.length,
       { resp with mapHeaders := mapInsert resp.mapHeaders t "present" })
  | some usSeperator =>
    let strKey := TrimSpaces (String.mk (strHeader.data.take usSeperator))
    let strValue := TrimSpaces (String.mk (strHeader.data.drop (usSeperator + 1)))
    (strHeader.length,
     { resp with mapHeaders := mapInsert resp.mapHeaders strKey strValue })

/-- Model of the `CHTTPClient::UploadObject` view: `pszData` is the not yet
consumed suffix of the caller's buffer, `usLength` the remaining length. -/
structure UploadObject where
  pszData : List Char
  usLength : Nat
deriving DecidableEq, Repr

/-- Outcome of one call to `CHTTPClient::RestReadCallback`: the bytes copied
to the engine's destination buffer, the advanced payload view, and the
returned count. -/
structure ReadOut where
  dest : List Char
  payload : UploadObject
  ret : Nat
deriving DecidableEq, Repr

/-- Model of `CHTTPClient::RestReadCallback` for a requested block size of
`usCurlSize` (= blockCount * blockSize) bytes. -/
def RestReadCallback (payload : UploadObject) (usCurlSize : Nat) : ReadOut :=
  let usCopySize := if payload.usLength < usCurlSize then payload.usLength else usCurlSize
  ⟨payload.pszData.take usCopySize,
   ⟨payload.pszData.drop usCopySize, payload.usLength - usCopySize⟩,
   usCopySize⟩

/-- Iterates `RestReadCallback` `n` times with block size `B`, returning the
final payload view and the total of the returned counts. -/
def drainRest (payload : UploadObject) (B : Nat) : Nat → UploadObject × Nat
  | 0 => (payload, 0)
  | n + 1 =>
    let r := RestReadCallback payload B
    let rest := drainRest r.payload B n
    (rest.1, r.ret + rest.2)

/-- Behaviour of the external engine during one `curl_easy_perform` of a REST
request: the CURLcode it returns, the value later read back through
`CURLINFO_RESPONSE_CODE`, and the chunks it pushes through the header and
body callbacks. -/
structure Transfer where
  performCode : Nat
  respCode : Int
  headerLines : List String
  bodyChunks : List String
deriving DecidableEq, Repr

/-- Effect on the caller's `HttpResponse` of the callbacks the engine invokes
during the transfer (`RestHeaderCallback` on each header line,
`RestWriteCallback` on each body chunk). -/
def applyTransfer (t : Transfer) (resp : HttpResponse) : HttpResponse :=
  let r1 := t.headerLines.foldl (fun r l => (RestHeaderCallback l r).2) resp
  t.bodyChunks.foldl (fun r c => (RestWriteCallback c r).2) r1

/-- Option ids set by `InitRestRequest` to wire the body and header sinks. -/
def initRestOpts : List (Nat × OptVal) :=
  [(CURLOPT_WRITEFUNCTION, OptVal.fnPtr),
   (CURLOPT_WRITEDATA, OptVal.fnPtr),
   (CURLOPT_HEADERFUNCTION, OptVal.fnPtr),
   (CURLOPT_HEADERDATA, OptVal.fnPtr)]

/-- Model of `CHTTPClient::InitRestRequest(strUrl, Headers, Response)`:
empty-URL and no-session checks, engine reset, URL normalization, sink
wiring, and translation of the caller's headers into the header list. -/
def InitRestRequest (st : ClientState) (strUrl : String)
    (headers : List (String × String)) : Bool × ClientState :=
  if strUrl = "" then
    (false, st)
  else if !st.pCurlSession then
    (false, st)
  else
    let st1 := CheckURL st strUrl
    let st2 := headers.foldl (fun s kv => AddHeader s (kv.1 ++ ": " ++ kv.2)) st1
    (true, st2)

/-- Model of `CHTTPClient::PostRestRequest(ePerformCode, Response)`:
on transport failure the body is cleared and the status forced to -1;
otherwise the status read back from the engine is stored.  `respCode` is the
value `curl_easy_getinfo(..., CURLINFO_RESPONSE_CODE, ...)` yields. -/
def PostRestRequest (ePerformCode : Nat) (respCode : Int)
    (resp : HttpResponse) : Bool × HttpResponse :=
  if ePerformCode ≠ CURLE_OK then
    (false, { resp with strBody := "", iCode := -1 })
  else
    (true, { resp with iCode := respCode })

/-- Outcome of one REST verb call: the boolean result, the client state, the
response record, and the trace of `curl_easy_setopt` calls issued since the
`curl_easy_reset`. -/
structure RestOut where
  ret : Bool
  st : ClientState
  resp : HttpResponse
  opts : List (Nat × OptVal)
deriving DecidableEq, Repr

/-- Shared tail of the REST verbs: perform the transfer (callbacks included)
and run the post-request handling.  `verbOpts` are the verb-specific
`curl_easy_setopt` calls issued between `InitRestRequest` and `Perform`. -/
def performRest (st1 : ClientState) (verbOpts : List (Nat × OptVal))
    (resp : HttpResponse) (t : Transfer) (caFile : String) : RestOut :=
  let p := Perform st1 caFile t.performCode
  let resp1 := applyTransfer t resp
  let r := PostRestRequest p.ret t.respCode resp1
  ⟨r.1, p.st, r.2, initRestOpts ++ verbOpts ++ p.opts⟩

/-- Model of `CHTTPClient::Head(strUrl, Headers, Response)`. -/
def Head (st : ClientState) (strUrl : String) (headers : List (String × String))
    (resp : HttpResponse) (t : Transfer) (caFile : String) : RestOut :=
  let r0 := InitRestRequest st strUrl headers
  if r0.1 then
    performRest r0.2
      [(CURLOPT_CUSTOMREQUEST, OptVal.str "HEAD"), (CURLOPT_NOBODY, OptVal.num 1)]
      resp t caFile
  else ⟨false, r0.2, resp, []⟩

/-- Model of `CHTTPClient::Get(strUrl, Headers, Response)`. -/
def Get (st : ClientState) (strUrl : String) (headers : List (String × String))
    (resp : HttpResponse) (t : Transfer) (caFile : String) : RestOut :=
  let r0 := InitRestRequest st strUrl headers
  if r0.1 then
    performRest r0.2 [(CURLOPT_HTTPGET, OptVal.num 1)] resp t caFile
  else ⟨false, r0.2, resp, []⟩

/-- Model of `CHTTPClient::Del(strUrl, Headers, Response)`. -/
def Del (st : ClientState) (strUrl : String) (headers : List (String × String))
    (resp : HttpResponse) (t : Transfer) (caFile : String) : RestOut :=
  let r0 := InitRestRequest st strUrl headers
  if r0.1 then
    performRest r0.2 [(CURLOPT_CUSTOMREQUEST, OptVal.str "DELETE")] resp t caFile
  else ⟨false, r0.2, resp, []⟩

/-- Model of `CHTTPClient::Post(strUrl, Headers, strPostData, Response)`. -/
def Post (st : ClientState) (strUrl : String) (headers : List (String × String))
    (strPostData : String) (resp : HttpResponse) (t : Transfer)
    (caFile : String) : RestOut :=
  let r0 := InitRestRequest st strUrl headers
  if r0.1 then
    performRest r0.2
      [(CURLOPT_POST, OptVal.num 1),
       (CURLOPT_POSTFIELDS, OptVal.str strPostData),
       (CURLOPT_POSTFIELDSIZE, OptVal.num strPostData.length)]
      resp t caFile
  else ⟨false, r0.2, resp, []⟩

/-- Model of `CHTTPClient::Put(strUrl, Headers, strPutData, Response)`
(the `std::string` overload, which wires `RestReadCallback` over an
`UploadObject` view of `strPutData`). -/
def Put (st : ClientState) (strUrl : String) (headers : List (String × String))
    (strPutData : String) (resp : HttpResponse) (t : Transfer)
    (caFile : String) : RestOut :=
  let r0 := InitRestRequest st strUrl headers
  if r0.1 then
    performRest r0.2
      [(CURLOPT_PUT, OptVal.num 1),
       (CURLOPT_UPLOAD, OptVal.num 1),
       (CURLOPT_READFUNCTION, OptVal.fnPtr),
       (CURLOPT_READDATA, OptVal.fnPtr),
       (CURLOPT_INFILESIZE, OptVal.num strPutData.length)]
      resp t caFile
  else ⟨false, r0.2, resp, []⟩

/-- One call in an `InitSession` / `CleanupSession` interleaving.  An `init`
event carries the two arguments and the outcome of the external
`curl_easy_init()` allocation. -/
inductive SessionEvent where
  | init (bHTTPS : Bool) (flags : Nat) (allocOk : Bool)
  | cleanup
deriving DecidableEq, Repr

/-- Applies one session event, returning the call's boolean result and the
updated client state. -/
def stepSession (st : ClientState) : SessionEvent → Bool × ClientState
  | SessionEvent.init b f a => InitSession st b f a
  | SessionEvent.cleanup => CleanupSession st

/-- Runs a sequence of session events from a starting state. -/
def runSession (st : ClientState) (es : List SessionEvent) : ClientState :=
  es.foldl (fun s e => (stepSession s e).2) st

/-- Spec-side characterization for claim C2: some `InitSession` call in the
sequence returned `true` and no `CleanupSession` call follows it. -/
def OpenSuccessfulInit (st0 : ClientState) (es : List SessionEvent) : Prop :=
  ∃ es1 b f a es2,
    es = es1 ++ SessionEvent.init b f a :: es2
    ∧ (stepSession (runSession st0 es1) (SessionEvent.init b f a)).1 = true
    ∧ ∀ e ∈ es2, e ≠ SessionEvent.cleanup

/-- An Active client state, as after a successful `InitSession`. -/
def sampleActiveState : ClientState :=
  { initialState with pCurlSession := true }

/-- Freshly constructed `HttpResponse` (`iCode` defaults to 0). -/
def freshResponse : HttpResponse :=
  { iCode := 0, mapHeaders := [], strBody := "" }

/-- Sample engine behaviour: transport success, HTTP status 401. -/
def sampleTransfer401 : Transfer :=
  { performCode := CURLE_OK, respCode := 401,
    headerLines := ["HTTP/1.1 401 Unauthorized\r\n"], bodyChunks := ["denied"] }

/-- Sample engine behaviour: transport failure
(CURLcode 6 = CURLE_COULDNT_RESOLVE_HOST). -/
def sampleTransferFail : Transfer :=
  { performCode := 6, respCode := 0, headerLines := [], bodyChunks := [] }

-- ------------------------------------------------------------------
-- Theorems
-- ------------------------------------------------------------------

/-- Helper: `ciStartsWith` unfolded to the comparison the source performs. -/
lemma ciStartsWith_true_iff (s pre : String) :
    ciStartsWith s pre = true
      ↔ (strToUpper s).data.take pre.length = (strToUpper pre).data := by
  simp [ciStartsWith]

/-- C10: when `InitSession` is called on an Uninitialized client and the
engine-handle allocation fails, the call returns false, yet the HTTPS flag
and the settings bitmask have been overwritten with the supplied arguments:
the failed call is not state-preserving. -/
theorem initSession_failed_alloc_overwrites_flags (st : ClientState) (b : Bool)
    (f : Nat) (h : st.pCurlSession = false) :
    (InitSession st b f false).1 = false
    ∧ (InitSession st b f false).2.bHTTPS = b
    ∧ (InitSession st b f false).2.eSettingsFlags = f
    ∧ (InitSession st b f false).2.pCurlSession = false := by
  simp [InitSession, h]

/-- Witness for C10 at the constructor state: the constructor sets
`bHTTPS := false` and `eSettingsFlags := ALL_FLAGS`; a failed
`InitSession(true, VERIFY_PEER)` still overwrites both. -/
theorem initSession_failed_alloc_overwrites_flags_witness :
    initialState.pCurlSession = false
    ∧ ((InitSession initialState true VERIFY_PEER false).1 = false
      ∧ (InitSession initialState true VERIFY_PEER false).2.bHTTPS = true
      ∧ (InitSession initialState true VERIFY_PEER false).2.eSettingsFlags = VERIFY_PEER
      ∧ (InitSession initialState true VERIFY_PEER false).2.pCurlSession = false) :=
  ⟨rfl, initSession_failed_alloc_overwrites_flags initialState true VERIFY_PEER rfl⟩

/-- C3: on an Active session, whatever CURLcode `curl_easy_perform` returns,
`Perform` frees the header list and nulls the member before returning, so no
header list carries over into a subsequent request. -/
theorem perform_releases_header_list (st : ClientState) (caFile : String)
    (engineCode : Nat) (h : st.pCurlSession = true) :
    (Perform st caFile engineCode).st.pHeaderlist = none := by
  simp [Perform, h]

/-- Witness for C3: a pending header list is released even when the transfer
fails (CURLcode 7 = CURLE_COULDNT_CONNECT). -/
theorem perform_releases_header_list_witness :
    ({ sampleActiveState with
        pHeaderlist := some ["Accept: text/html"] } : ClientState).pCurlSession = true
    ∧ (Perform { sampleActiveState with pHeaderlist := some ["Accept: text/html"] }
        "" 7).st.pHeaderlist = none :=
  ⟨rfl, perform_releases_header_list _ "" 7 rfl⟩

/-- C1, evaluated at the failing input (Active session, HTTPS on, settings =
VERIFY_PEER ||| VERIFY_HOST = 0x06): `CHTTPClient::Perform` never sets
`CURLOPT_SSL_VERIFYHOST`, and its second write to `CURLOPT_SSL_VERIFYPEER`
masks the settings with the curl constant `CURLOPT_SSL_VERIFYHOST` (= 81),
so peer verification ends up disabled although `VERIFY_PEER` is set.
The claim requires host verification to be enabled and peer verification to
be set to 1 for this input. -/
theorem perform_ssl_verify_slip :
    lastOpt (Perform { sampleActiveState with bHTTPS := true, eSettingsFlags := 0x06 }
        "" CURLE_OK).opts CURLOPT_SSL_VERIFYHOST = none
    ∧ lastOpt (Perform { sampleActiveState with bHTTPS := true, eSettingsFlags := 0x06 }
        "" CURLE_OK).opts CURLOPT_SSL_VERIFYPEER = some (OptVal.num 0)
    ∧ lastOpt (Perform { sampleActiveState with bHTTPS := true, eSettingsFlags := 0x06 }
        "" CURLE_OK).opts CURLOPT_USE_SSL = some (OptVal.num CURLUSESSL_ALL) := by
  decide

/-- C7, evaluated at the failing input: `DownloadFile` on an Active session
with non-empty arguments whose local output file fails to open performs no
transfer, but returns `true` when `ENABLE_LOG` is not set, because the
source's `return false` is nested inside `else if (m_eSettingsFlags &
ENABLE_LOG)`.  With `ENABLE_LOG` set it returns `false` as the claim says. -/
theorem downloadFile_open_failure_silent_success :
    (DownloadFile { sampleActiveState with eSettingsFlags := NO_FLAGS }
        "out.bin" "http://x" false CURLE_OK "").ret = true
    ∧ (DownloadFile { sampleActiveState with eSettingsFlags := NO_FLAGS }
        "out.bin" "http://x" false CURLE_OK "").transferPerformed = false
    ∧ (DownloadFile { sampleActiveState with eSettingsFlags := ENABLE_LOG }
        "out.bin" "http://x" false CURLE_OK "").ret = false
    ∧ (DownloadFile { sampleActiveState with eSettingsFlags := ENABLE_LOG }
        "out.bin" "http://x" false CURLE_OK "").transferPerformed = false := by
  decide

/-- C6: for a non-empty proxy string, `SetProxy` stores the input prefixed
with "http://" when its first four characters are not case-insensitively
"HTTP", and stores it verbatim otherwise. -/
theorem setProxy_normalizes (st : ClientState) (strProxy : String)
    (h : strProxy ≠ "") :
    (ciStartsWith strProxy "HTTP" = false →
      SetProxy st strProxy = { st with strProxy := "http://" ++ strProxy })
    ∧ (ciStartsWith strProxy "HTTP" = true →
      SetProxy st strProxy = { st with strProxy := strProxy }) := by
  have hlen : ("HTTP" : String).length = 4 := rfl
  have hup : (strToUpper "HTTP").data = "HTTP".data := by decide
  constructor
  · intro hci
    have hn : ¬ ((strToUpper strProxy).data.take 4 = "HTTP".data) := by
      intro hc
      have : ciStartsWith strProxy "HTTP" = true := by
        rw [ciStartsWith_true_iff, hlen, hup]; exact hc
      rw [hci] at this
      exact absurd this (by decide)
    simp [SetProxy, h, hn]
  · intro hci
    have hc : (strToUpper strProxy).data.take 4 = "HTTP".data := by
      have := (ciStartsWith_true_iff strProxy "HTTP").mp hci
      rwa [hlen, hup] at this
    simp [SetProxy, h, hc]

/-- Witness for C6 with the spec's examples: `SetProxy("my_proxy")` stores
"http://my_proxy"; `SetProxy("https://x:3128")` stores it verbatim. -/
theorem setProxy_normalizes_witness :
    ("my_proxy" : String) ≠ ""
    ∧ ciStartsWith "my_proxy" "HTTP" = false
    ∧ SetProxy initialState "my_proxy"
        = { initialState with strProxy := "http://my_proxy" }
    ∧ ("https://x:3128" : String) ≠ ""
    ∧ ciStartsWith "https://x:3128" "HTTP" = true
    ∧ SetProxy initialState "https://x:3128"
        = { initialState with strProxy := "https://x:3128" } := by
  refine ⟨by decide, by decide, ?_, by decide, by decide, ?_⟩
  · have h := (setProxy_normalizes initialState "my_proxy" (by decide)).1 (by decide)
    rw [h]
    decide
  · exact (setProxy_normalizes initialState "https://x:3128" (by decide)).2 (by decide)

/-- C5: `CheckURL` stores a URL verbatim and forces the HTTPS flag to false
when it case-insensitively starts with "http://", stores it verbatim and
forces the flag to true when it starts with "https://", and otherwise stores
it prefixed with the scheme chosen by the current HTTPS flag, leaving the
flag unchanged. -/
theorem checkURL_normalizes (st : ClientState) (url : String) :
    (ciStartsWith url "http://" = true →
      CheckURL st url = { st with bHTTPS := false, strURL := url })
    ∧ (ciStartsWith url "https://" = true →
      CheckURL st url = { st with bHTTPS := true, strURL := url })
    ∧ (ciStartsWith url "http://" = false → ciStartsWith url "https://" = false →
      CheckURL st url =
        { st with strURL := (if st.bHTTPS then "https://" else "http://") ++ url }) := by
  have hlen7 : ("http://" : String).length = 7 := rfl
  have hup7 : (strToUpper "http://").data = "HTTP://".data := by decide
  have hlen8 : ("https://" : String).length = 8 := rfl
  have hup8 : (strToUpper "https://").data = "HTTPS://".data := by decide
  refine ⟨fun h1 => ?_, fun h2 => ?_, fun h1 h2 => ?_⟩
  · have hc : (strToUpper url).data.take 7 = "HTTP://".data := by
      have := (ciStartsWith_true_iff url "http://").mp h1
      rwa [hlen7, hup7] at this
    simp [CheckURL, hc]
  · have hc8 : (strToUpper url).data.take 8 = "HTTPS://".data := by
      have := (ciStartsWith_true_iff url "https://").mp h2
      rwa [hlen8, hup8] at this
    have hc7 : ¬ ((strToUpper url).data.take 7 = "HTTP://".data) := by
      have h7 : (strToUpper url).data.take 7
          = ("HTTPS://".data).take 7 := by
        rw [← hc8, List.take_take]
        norm_num
      rw [h7]
      decide
    simp [CheckURL, hc7, hc8]
  · have hc7 : ¬ ((strToUpper url).data.take 7 = "HTTP://".data) := by
      intro hc
      have : ciStartsWith url "http://" = true := by
        rw [ciStartsWith_true_iff, hlen7, hup7]; exact hc
      rw [h1] at this
      exact absurd this (by decide)
    have hc8 : ¬ ((strToUpper url).data.take 8 = "HTTPS://".data) := by
      intro hc
      have : ciStartsWith url "https://" = true := by
        rw [ciStartsWith_true_iff, hlen8, hup8]; exact hc
      rw [h2] at this
      exact absurd this (by decide)
    simp [CheckURL, hc7, hc8]

/-- Witness for C5 with the spec's examples: a schemeless URL is prefixed
according to the current HTTPS flag, and an explicit "HTTP://" scheme turns
the flag off and is stored verbatim. -/
theorem checkURL_normalizes_witness :
    ciStartsWith "www.example.com" "http://" = false
    ∧ ciStartsWith "www.example.com" "https://" = false
    ∧ CheckURL { initialState with bHTTPS := true } "www.example.com"
        = { initialState with bHTTPS := true, strURL := "https://www.example.com" }
    ∧ ciStartsWith "HTTP://example.com" "http://" = true
    ∧ CheckURL { initialState with bHTTPS := true } "HTTP://example.com"
        = { initialState with bHTTPS := false, strURL := "HTTP://example.com" } := by
  refine ⟨by decide, by decide, ?_, by decide, ?_⟩
  · have h := (checkURL_normalizes { initialState with bHTTPS := true }
      "www.example.com").2.2 (by decide) (by decide)
    rw [h]
    decide
  · have h := (checkURL_normalizes { initialState with bHTTPS := true }
      "HTTP://example.com").1 (by decide)
    rw [h]

/-- Helper: looking up a key in the replaced list after a hit. -/
lemma find?_map_replace (tl : List (String × String)) (k v : String)
    (h : tl.any (fun p => p.1 == k) = true) :
    (tl.map (fun p => if p.1 == k then (k, v) else p)).find?
        (fun p => p.1 == k) = some (k, v) := by
  induction tl with
  | nil => simp at h
  | cons p tl ih =>
    rw [List.map_cons]
    by_cases hp : (p.1 == k) = true
    · rw [if_pos hp]
      rw [List.find?_cons_of_pos _ (by simp)]
    · rw [if_neg hp]
      rw [List.find?_cons_of_neg _ (by simp [hp])]
      simp only [List.any_cons, hp, Bool.false_or] at h
      exact ih h

/-- Helper: looking up the just-inserted key yields the just-inserted value
(last write wins). -/
lemma mapFind?_mapInsert (m : List (String × String)) (k v : String) :
    mapFind? (mapInsert m k v) k = some v := by
  unfold mapInsert mapFind?
  by_cases h : m.any (fun p => p.1 == k) = true
  · rw [if_pos h, find?_map_replace m k v h]
    rfl
  · rw [if_neg h]
    have hnone : m.find? (fun p => p.1 == k) = none := by
      rw [List.find?_eq_none]
      intro p hmem hpk
      exact h (List.any_eq_true.mpr ⟨p, hmem, hpk⟩)
    rw [List.find?_append, hnone]
    simp

/-- Helper: a string of length zero is the empty string. -/
lemma string_empty_of_length_zero {s : String} (h : s.length = 0) : s = "" := by
  cases s with
  | mk data =>
    cases data with
    | nil => rfl
    | cons c cs => simp at h

/-- C8: the header-parser callback records a colon-separated line under its
trimmed key with the trimmed remainder as value (overwriting any prior
value), records a colon-free non-blank line under its own trimmed text with
value "present", leaves the response untouched on a blank line, and returns
the full delivered byte count in every case. -/
theorem restHeaderCallback_spec (resp : HttpResponse) (line : String) :
    (RestHeaderCallback line resp).1 = line.length
    ∧ (∀ sep : Nat, line.data.findIdx? (fun c => c == ':') = some sep →
        mapFind? (RestHeaderCallback line resp).2.mapHeaders
            (TrimSpaces (String.mk (line.data.take sep)))
          = some (TrimSpaces (String.mk (line.data.drop (sep + 1)))))
    ∧ (line.data.findIdx? (fun c => c == ':') = none →
        TrimSpaces line ≠ "" →
        mapFind? (RestHeaderCallback line resp).2.mapHeaders (TrimSpaces line)
          = some "present")
    ∧ (line.data.findIdx? (fun c => c == ':') = none →
        TrimSpaces line = "" →
        (RestHeaderCallback line resp).2 = resp) := by
  refine ⟨?_, fun sep hsep => ?_, fun hnone hne => ?_, fun hnone hbl => ?_⟩
  · unfold RestHeaderCallback
    rcases hf : line.data.findIdx? (fun c => c == ':') with _ | sep
    · dsimp only
      split <;> rfl
    · rfl
  · simp only [RestHeaderCallback, hsep]
    exact mapFind?_mapInsert _ _ _
  · have hlen : ¬ ((TrimSpaces line).length = 0) := by
      intro h0
      exact hne (string_empty_of_length_zero h0)
    simp only [RestHeaderCallback, hnone]
    rw [if_neg hlen]
    exact mapFind?_mapInsert _ _ _
  · have hlen : (TrimSpaces line).length = 0 := by
      rw [hbl]; rfl
    simp [RestHeaderCallback, hnone, hlen]

/-- Witness for C8 with the spec's example: feeding
"Connection: keep-alive\r\n" yields entry "Connection" -> "keep-alive" and
returns the full 24-byte count. -/
theorem restHeaderCallback_spec_witness :
    (RestHeaderCallback "Connection: keep-alive\r\n" freshResponse).1 = 24
    ∧ mapFind? (RestHeaderCallback "Connection: keep-alive\r\n"
        freshResponse).2.mapHeaders "Connection" = some "keep-alive" := by
  have h := restHeaderCallback_spec freshResponse "Connection: keep-alive\r\n"
  refine ⟨h.1, ?_⟩
  have h2 := h.2.1 10 (by decide)
  rw [show TrimSpaces (String.mk (("Connection: keep-alive\r\n" : String).data.take 10))
        = "Connection" from by decide,
      show TrimSpaces (String.mk (("Connection: keep-alive\r\n" : String).data.drop 11))
        = "keep-alive" from by decide] at h2
  exact h2

/-- Helper: closed form of `n` iterated read-callback calls on a consistent
payload view: the view has advanced by `min L (n*B)` bytes and that many
bytes have been reported copied in total. -/
lemma drainRest_eq (B : Nat) (n : Nat) :
    ∀ data : List Char,
      drainRest ⟨data, data.length⟩ B n
        = (⟨data.drop (min data.length (n * B)), data.length - n * B⟩,
           min data.length (n * B)) := by
  induction n with
  | zero =>
    intro data
    simp [drainRest]
  | succ n ih =>
    intro data
    have hc : (if data.length < B then data.length else B) = min data.length B := by
      split <;> omega
    have hlen : (data.drop (min data.length B)).length
        = data.length - min data.length B := by
      simp
    simp only [drainRest, RestReadCallback, hc]
    rw [show (⟨data.drop (min data.length B),
          data.length - min data.length B⟩ : UploadObject)
        = ⟨data.drop (min data.length B), (data.drop (min data.length B)).length⟩ from by
      rw [hlen]]
    rw [ih (data.drop (min data.length B))]
    rw [hlen]
    rw [Nat.succ_mul]
    have harith1 : min data.length B + min (data.length - min data.length B) (n * B)
        = min data.length (n * B + B) := by omega
    have harith2 : data.length - min data.length B - n * B
        = data.length - (n * B + B) := by omega
    rw [List.drop_drop]
    dsimp only
    rw [harith1, harith2]

/-- C9: each read-callback call copies `min(remaining, B)` bytes to the
destination, advances the source view and decrements the remaining length by
that amount, and returns the copied count; starting from a buffer of length
`L`, `ceil(L/B)` calls consume exactly `L` bytes in total, and a further call
on the drained view returns 0. -/
theorem restReadCallback_drains (data : List Char) (B : Nat) (hB : 0 < B) :
    (∀ p : UploadObject,
        RestReadCallback p B
          = ⟨p.pszData.take (min p.usLength B),
             ⟨p.pszData.drop (min p.usLength B), p.usLength - min p.usLength B⟩,
             min p.usLength B⟩)
    ∧ (drainRest ⟨data, data.length⟩ B ((data.length + B - 1) / B)).2 = data.length
    ∧ (drainRest ⟨data, data.length⟩ B ((data.length + B - 1) / B)).1.usLength = 0
    ∧ (RestReadCallback
        (drainRest ⟨data, data.length⟩ B ((data.length + B - 1) / B)).1 B).ret = 0 := by
  have hceil : data.length ≤ ((data.length + B - 1) / B) * B := by
    have h1 := Nat.div_add_mod (data.length + B - 1) B
    have h2 : (data.length + B - 1) % B < B := Nat.mod_lt _ hB
    rw [Nat.mul_comm] at h1
    generalize hm : ((data.length + B - 1) / B) * B = m at h1 ⊢
    omega
  have hdr := drainRest_eq B ((data.length + B - 1) / B) data
  refine ⟨fun p => ?_, ?_, ?_, ?_⟩
  · have hc : (if p.usLength < B then p.usLength else B) = min p.usLength B := by
      split <;> omega
    simp only [RestReadCallback, hc]
  · rw [hdr]
    exact Nat.min_eq_left hceil
  · rw [hdr]
    exact Nat.sub_eq_zero_of_le hceil
  · rw [hdr]
    simp only [RestReadCallback]
    have h0 : data.length - ((data.length + B - 1) / B) * B = 0 :=
      Nat.sub_eq_zero_of_le hceil
    simp [h0, hB]

/-- Witness for C9 with a 13-byte buffer and block size 5: three calls
consume all 13 bytes and a fourth returns 0. -/
theorem restReadCallback_drains_witness :
    0 < 5
    ∧ (drainRest ⟨"hello world!!".data, "hello world!!".data.length⟩ 5
        (("hello world!!".data.length + 5 - 1) / 5)).2 = "hello world!!".data.length
    ∧ (drainRest ⟨"hello world!!".data, "hello world!!".data.length⟩ 5
        (("hello world!!".data.length + 5 - 1) / 5)).1.usLength = 0
    ∧ (RestReadCallback
        (drainRest ⟨"hello world!!".data, "hello world!!".data.length⟩ 5
          (("hello world!!".data.length + 5 - 1) / 5)).1 5).ret = 0 := by
  have h := restReadCallback_drains "hello world!!".data 5 (by decide)
  exact ⟨by decide, h.2.1, h.2.2.1, h.2.2.2⟩

/-- Helper: `CheckURL` never touches the session handle. -/
lemma checkURL_pCurlSession (st : ClientState) (u : String) :
    (CheckURL st u).pCurlSession = st.pCurlSession := by
  unfold CheckURL
  by_cases h7 : (strToUpper u).data.take 7 = "HTTP://".data
  · simp [h7]
  · by_cases h8 : (strToUpper u).data.take 8 = "HTTPS://".data <;> simp [h7, h8]

/-- Helper: translating the caller's headers never touches the session
handle. -/
lemma foldl_addHeader_pCurlSession (headers : List (String × String)) :
    ∀ st : ClientState,
      (headers.foldl (fun s kv => AddHeader s (kv.1 ++ ": " ++ kv.2))
        st).pCurlSession = st.pCurlSession := by
  induction headers with
  | nil => intro st; rfl
  | cons kv tl ih =>
    intro st
    rw [List.foldl_cons, ih]
    rfl

/-- Helper: on an Active session with a non-empty URL, `InitRestRequest`
succeeds and the session stays Active. -/
lemma initRestRequest_ok (st : ClientState) (strUrl : String)
    (headers : List (String × String)) (h1 : st.pCurlSession = true)
    (h2 : strUrl ≠ "") :
    (InitRestRequest st strUrl headers).1 = true
    ∧ (InitRestRequest st strUrl headers).2.pCurlSession = true := by
  unfold InitRestRequest
  rw [if_neg h2, if_neg (by simp [h1])]
  refine ⟨rfl, ?_⟩
  rw [foldl_addHeader_pCurlSession, checkURL_pCurlSession]
  exact h1

/-- Helper: shape of the shared REST tail on an Active session: transport
failure forces `{false, iCode = -1, empty body}`, transport success yields
`{true, iCode = status}`. -/
lemma performRest_shape (st1 : ClientState) (verbOpts : List (Nat × OptVal))
    (resp : HttpResponse) (t : Transfer) (caFile : String)
    (h : st1.pCurlSession = true) :
    (t.performCode ≠ CURLE_OK →
      (performRest st1 verbOpts resp t caFile).ret = false
      ∧ (performRest st1 verbOpts resp t caFile).resp.iCode = -1
      ∧ (performRest st1 verbOpts resp t caFile).resp.strBody = "")
    ∧ (t.performCode = CURLE_OK →
      (performRest st1 verbOpts resp t caFile).ret = true
      ∧ (performRest st1 verbOpts resp t caFile).resp.iCode = t.respCode) := by
  by_cases hc : t.performCode = CURLE_OK <;>
    simp [performRest, Perform, PostRestRequest, h, hc]

/-- C4: on an Active session with a non-empty URL, every REST verb (Head,
Get, Del, Post, Put) returns false with `iCode = -1` and an empty body when
the transfer fails at the transport level, and returns true with `iCode`
set to the HTTP status code (4xx/5xx included) when the transfer succeeds. -/
theorem rest_verbs_failure_shape (st : ClientState) (strUrl : String)
    (headers : List (String × String)) (resp : HttpResponse) (t : Transfer)
    (caFile : String) (postData putData : String)
    (h1 : st.pCurlSession = true) (h2 : strUrl ≠ "") :
    ((t.performCode ≠ CURLE_OK →
        (Head st strUrl headers resp t caFile).ret = false
        ∧ (Head st strUrl headers resp t caFile).resp.iCode = -1
        ∧ (Head st strUrl headers resp t caFile).resp.strBody = "")
      ∧ (t.performCode = CURLE_OK →
        (Head st strUrl headers resp t caFile).ret = true
        ∧ (Head st strUrl headers resp t caFile).resp.iCode = t.respCode))
    ∧ ((t.performCode ≠ CURLE_OK →
        (Get st strUrl headers resp t caFile).ret = false
        ∧ (Get st strUrl headers resp t caFile).resp.iCode = -1
        ∧ (Get st strUrl headers resp t caFile).resp.strBody = "")
      ∧ (t.performCode = CURLE_OK →
        (Get st strUrl headers resp t caFile).ret = true
        ∧ (Get st strUrl headers resp t caFile).resp.iCode = t.respCode))
    ∧ ((t.performCode ≠ CURLE_OK →
        (Del st strUrl headers resp t caFile).ret = false
        ∧ (Del st strUrl headers resp t caFile).resp.iCode = -1
        ∧ (Del st strUrl headers resp t caFile).resp.strBody = "")
      ∧ (t.performCode = CURLE_OK →
        (Del st strUrl headers resp t caFile).ret = true
        ∧ (Del st strUrl headers resp t caFile).resp.iCode = t.respCode))
    ∧ ((t.performCode ≠ CURLE_OK →
        (Post st strUrl headers postData resp t caFile).ret = false
        ∧ (Post st strUrl headers postData resp t caFile).resp.iCode = -1
        ∧ (Post st strUrl headers postData resp t caFile).resp.strBody = "")
      ∧ (t.performCode = CURLE_OK →
        (Post st strUrl headers postData resp t caFile).ret = true
        ∧ (Post st strUrl headers postData resp t caFile).resp.iCode = t.respCode))
    ∧ ((t.performCode ≠ CURLE_OK →
        (Put st strUrl headers putData resp t caFile).ret = false
        ∧ (Put st strUrl headers putData resp t caFile).resp.iCode = -1
        ∧ (Put st strUrl headers putData resp t caFile).resp.strBody = "")
      ∧ (t.performCode = CURLE_OK →
        (Put st strUrl headers putData resp t caFile).ret = true
        ∧ (Put st strUrl headers putData resp t caFile).resp.iCode = t.respCode)) := by
  obtain ⟨hok, hact⟩ := initRestRequest_ok st strUrl headers h1 h2
  refine ⟨?_, ?_, ?_, ?_, ?_⟩
  · unfold Head
    rw [if_pos hok]
    exact performRest_shape _ _ resp t caFile hact
  · unfold Get
    rw [if_pos hok]
    exact performRest_shape _ _ resp t caFile hact
  · unfold Del
    rw [if_pos hok]
    exact performRest_shape _ _ resp t caFile hact
  · unfold Post
    rw [if_pos hok]
    exact performRest_shape _ _ resp t caFile hact
  · unfold Put
    rw [if_pos hok]
    exact performRest_shape _ _ resp t caFile hact

/-- Witness for C4: a transport failure on Head yields
`{false, iCode = -1, empty body}`, and a transport success carrying HTTP 401
yields `true` and `iCode = 401` from Get. -/
theorem rest_verbs_failure_shape_witness :
    sampleActiveState.pCurlSession = true
    ∧ ("http://x" : String) ≠ ""
    ∧ (Head sampleActiveState "http://x" [] freshResponse sampleTransferFail "").ret = false
    ∧ (Head sampleActiveState "http://x" [] freshResponse sampleTransferFail "").resp.iCode = -1
    ∧ (Head sampleActiveState "http://x" [] freshResponse sampleTransferFail "").resp.strBody = ""
    ∧ (Get sampleActiveState "http://x" [] freshResponse sampleTransfer401 "").ret = true
    ∧ (Get sampleActiveState "http://x" [] freshResponse sampleTransfer401 "").resp.iCode = 401 := by
  have hfail := (rest_verbs_failure_shape sampleActiveState "http://x" []
    freshResponse sampleTransferFail "" "" "" rfl (by decide)).1.1 (by decide)
  have hsucc := (rest_verbs_failure_shape sampleActiveState "http://x" []
    freshResponse sampleTransfer401 "" "" "" rfl (by decide)).2.1.2 rfl
  exact ⟨rfl, by decide, hfail.1, hfail.2.1, hfail.2.2, hsucc.1, hsucc.2⟩

/-- Helper: two lists ending in a single element agree on the prefix and the
last element. -/
lemma snoc_inj {α : Type} {l l' : List α} {a b : α}
    (h : l ++ [a] = l' ++ [b]) : l = l' ∧ a = b := by
  have hlen : l.length = l'.length := by
    have := congrArg List.length h
    simp at this
    omega
  obtain ⟨h1, h2⟩ := List.append_inj h hlen
  exact ⟨h1, by simpa using h2⟩

/-- Helper: running one more event steps the final state. -/
lemma runSession_snoc (st : ClientState) (es : List SessionEvent)
    (e : SessionEvent) :
    runSession st (es ++ [e]) = (stepSession (runSession st es) e).2 := by
  unfold runSession
  rw [List.foldl_append]
  rfl

/-- Helper: after any `CleanupSession` call the session handle is null. -/
lemma cleanupSession_result_inactive (st : ClientState) :
    (CleanupSession st).2.pCurlSession = false := by
  cases hb : st.pCurlSession <;> simp [CleanupSession, hb]

/-- Helper: `InitSession` leaves the session Active exactly when it was
already Active (the call then fails) or the allocation succeeded. -/
lemma initSession_result_active (st : ClientState) (b : Bool) (f : Nat)
    (a : Bool) :
    ((InitSession st b f a).2.pCurlSession = true)
      ↔ (st.pCurlSession = true ∨ a = true) := by
  cases hb : st.pCurlSession <;> simp [InitSession, hb]

/-- Helper: return value of `InitSession` on an inactive session is the
allocation outcome. -/
lemma initSession_ret_inactive (st : ClientState) (b : Bool) (f : Nat)
    (a : Bool) (h : st.pCurlSession = false) :
    (InitSession st b f a).1 = a := by
  simp [InitSession, h]

/-- Helper: a Bool that is not true is false. -/
lemma bool_eq_false_of_ne_true {x : Bool} (h : ¬ x = true) : x = false := by
  cases x
  · rfl
  · exact absurd rfl h

/-- Helper: the session is Active after a run exactly when some
`InitSession` call in it returned true with no `CleanupSession` after it. -/
lemma active_iff_openInit (st0 : ClientState) (h0 : st0.pCurlSession = false)
    (es : List SessionEvent) :
    (runSession st0 es).pCurlSession = true ↔ OpenSuccessfulInit st0 es := by
  induction es using List.reverseRecOn with
  | nil =>
    constructor
    · intro h
      rw [show runSession st0 [] = st0 from rfl, h0] at h
      exact absurd h (by decide)
    · rintro ⟨es1, b, f, a, es2, heq, -, -⟩
      have := congrArg List.length heq
      simp at this
      exact absurd this (by omega)
  | append_singleton es e ih =>
    rw [runSession_snoc]
    cases e with
    | cleanup =>
      have hfalse : (stepSession (runSession st0 es) SessionEvent.cleanup).2.pCurlSession
          = false := cleanupSession_result_inactive _
      rw [hfalse]
      constructor
      · intro h
        exact absurd h (by decide)
      · rintro ⟨es1, b, f, a, es2, heq, hres, hnc⟩
        rcases List.eq_nil_or_concat' es2 with h2 | ⟨es2', x, h2⟩
        · subst h2
          have hev := (snoc_inj heq).2
          exact SessionEvent.noConfusion hev
        · subst h2
          have heq' : es ++ [SessionEvent.cleanup]
              = (es1 ++ SessionEvent.init b f a :: es2') ++ [x] := by
            rw [heq]
            simp
          have hx := (snoc_inj heq').2
          exact ((hnc x (by simp)) hx.symm).elim
    | init b f a =>
      rw [show stepSession (runSession st0 es) (SessionEvent.init b f a)
            = InitSession (runSession st0 es) b f a from rfl]
      rw [initSession_result_active]
      constructor
      · intro h
        by_cases hs : (runSession st0 es).pCurlSession = true
        · obtain ⟨es1, b', f', a', es2, heq, hres, hnc⟩ := ih.mp hs
          refine ⟨es1, b', f', a', es2 ++ [SessionEvent.init b f a], ?_, hres, ?_⟩
          · rw [heq]
            simp
          · intro e he
            rcases List.mem_append.mp he with hin | hin
            · exact hnc e hin
            · simp at hin
              subst hin
              exact fun hc => SessionEvent.noConfusion hc
        · have hs' : (runSession st0 es).pCurlSession = false :=
            bool_eq_false_of_ne_true hs
          have ha : a = true := by
            rcases h with hs'' | ha
            · exact absurd hs'' hs
            · exact ha
          refine ⟨es, b, f, a, [], by simp, ?_, by intro e he; simp at he⟩
          rw [show stepSession (runSession st0 es) (SessionEvent.init b f a)
                = InitSession (runSession st0 es) b f a from rfl,
              initSession_ret_inactive _ b f a hs']
          exact ha
      · rintro ⟨es1, b', f', a', es2, heq, hres, hnc⟩
        rcases List.eq_nil_or_concat' es2 with h2 | ⟨es2', x, h2⟩
        · subst h2
          obtain ⟨hes, hev⟩ := snoc_inj heq
          injection hev with hb hf ha'
          by_cases hs : (runSession st0 es).pCurlSession = true
          · exact Or.inl hs
          · have hs' : (runSession st0 es).pCurlSession = false :=
              bool_eq_false_of_ne_true hs
            right
            rw [← hes] at hres
            rw [show stepSession (runSession st0 es) (SessionEvent.init b' f' a')
                  = InitSession (runSession st0 es) b' f' a' from rfl,
                initSession_ret_inactive _ b' f' a' hs'] at hres
            rw [ha']
            exact hres
        · subst h2
          have heq' : es ++ [SessionEvent.init b f a]
              = (es1 ++ SessionEvent.init b' f' a' :: es2') ++ [x] := by
            rw [heq]
            simp
          obtain ⟨hes, hx⟩ := snoc_inj heq'
          left
          apply ih.mpr
          exact ⟨es1, b', f', a', es2', hes, hres,
            fun e he => hnc e (List.mem_append.mpr (Or.inl he))⟩

/-- C2: over every interleaved `InitSession`/`CleanupSession` sequence
started from an Uninitialized client, the session is Active (engine handle
non-null) iff some `InitSession` call returned true with no `CleanupSession`
after it; and every mismatched call — `InitSession` while Active,
`CleanupSession` while Uninitialized — returns false and leaves the client
state unchanged. -/
theorem session_lifecycle_invariant (st0 : ClientState)
    (es : List SessionEvent) (h0 : st0.pCurlSession = false) :
    ((runSession st0 es).pCurlSession = true ↔ OpenSuccessfulInit st0 es)
    ∧ (∀ (st : ClientState) (b : Bool) (f : Nat) (a : Bool),
        st.pCurlSession = true → InitSession st b f a = (false, st))
    ∧ (∀ st : ClientState, st.pCurlSession = false →
        CleanupSession st = (false, st)) := by
  refine ⟨active_iff_openInit st0 h0 es, ?_, ?_⟩
  · intro st b f a h
    simp [InitSession, h]
  · intro st h
    simp [CleanupSession, h]

/-- Witness for C2: a successful init, a redundant init (rejected), a
cleanup, and a redundant cleanup (rejected), starting from the constructor
state. -/
theorem session_lifecycle_invariant_witness :
    initialState.pCurlSession = false
    ∧ ((runSession initialState
          [SessionEvent.init true ALL_FLAGS true,
           SessionEvent.init false NO_FLAGS true,
           SessionEvent.cleanup,
           SessionEvent.cleanup]).pCurlSession = true
        ↔ OpenSuccessfulInit initialState
          [SessionEvent.init true ALL_FLAGS true,
           SessionEvent.init false NO_FLAGS true,
           SessionEvent.cleanup,
           SessionEvent.cleanup]) :=
  ⟨rfl, (session_lifecycle_invariant initialState _ rfl).1⟩

end HttpClientCpp
